import Mathlib

/-!
Verification of the replication core of connected-spaces-platform: the
ReplicatedValue tagged union, the component property store, and the
network event decoder (spec sections 3, 4, 7, 8).

C++ float/double payloads are modelled as rationals; every arithmetic
fact proved here is an exact componentwise identity, which the source
computes with exact IEEE multiplications by powers of two.
-/

namespace csp

/-- Kinds of a ReplicatedValue, in the order enumerated by
ReplicatedValueTypeToString in
src/Library/include/CSP/Common/ReplicatedValueException.h. -/
inductive ReplicatedValueType where
  | InvalidType
  | Boolean
  | Integer
  | Float
  | String
  | Vector3
  | Vector4
  | Vector2
  | StringMap
  deriving DecidableEq, Repr

/-- String name of each kind, from ReplicatedValueTypeToString in
src/Library/include/CSP/Common/ReplicatedValueException.h. -/
def ReplicatedValueTypeToString : ReplicatedValueType → String
  | .InvalidType => "InvalidType"
  | .Boolean => "Boolean"
  | .Integer => "Integer"
  | .Float => "Float"
  | .String => "String"
  | .Vector3 => "Vector3"
  | .Vector4 => "Vector4"
  | .Vector2 => "Vector2"
  | .StringMap => "StringMap"

/-- A 2-component vector (csp::common::Vector2), floats as rationals. -/
structure Vector2 where
  X : ℚ
  Y : ℚ
  deriving DecidableEq, Repr

/-- A 3-component vector (csp::common::Vector3), floats as rationals. -/
structure Vector3 where
  X : ℚ
  Y : ℚ
  Z : ℚ
  deriving DecidableEq, Repr

/-- A 4-component vector (csp::common::Vector4), floats as rationals. -/
structure Vector4 where
  X : ℚ
  Y : ℚ
  Z : ℚ
  W : ℚ
  deriving DecidableEq, Repr

/-- Modelled from the spec: the closed tagged union csp::common::ReplicatedValue
(spec section 3); its class definition (ReplicatedValue.h) is not under src,
only its exception header and its component users are. One constructor per
kind; a default-constructed value is the Invalid one. -/
inductive ReplicatedValue where
  | invalid
  | boolValue (b : Bool)
  | intValue (i : Int)
  | floatValue (q : ℚ)
  | stringValue (s : String)
  | vector2Value (v : Vector2)
  | vector3Value (v : Vector3)
  | vector4Value (v : Vector4)
  | stringMapValue (m : List (String × String))
  deriving DecidableEq, Repr

/-- The queryable active kind of a value (ReplicatedValue::GetReplicatedValueType). -/
def ReplicatedValue.GetReplicatedValueType : ReplicatedValue → ReplicatedValueType
  | .invalid => .InvalidType
  | .boolValue _ => .Boolean
  | .intValue _ => .Integer
  | .floatValue _ => .Float
  | .stringValue _ => .String
  | .vector2Value _ => .Vector2
  | .vector3Value _ => .Vector3
  | .vector4Value _ => .Vector4
  | .stringMapValue _ => .StringMap

/-- The exception carrying expected and actual kind, from class
ReplicatedValueException in src/Library/include/CSP/Common/ReplicatedValueException.h. -/
structure ReplicatedValueException where
  ExpectedType : ReplicatedValueType
  ActualType : ReplicatedValueType
  deriving DecidableEq, Repr

/-- The message built by the ReplicatedValueException constructor
(fmt::format of "Expected - {} but found {}." over the two kind names). -/
def ReplicatedValueException.what (e : ReplicatedValueException) : String :=
  "Expected - " ++ (ReplicatedValueTypeToString e.ExpectedType) ++ " but found "
    ++ (ReplicatedValueTypeToString e.ActualType) ++ "."

/-- Modelled from the spec: fixed default for the String kind
(ReplicatedValue::GetDefaultString, referenced by the component getters in
src but defined in the absent ReplicatedValue.cpp): the empty string. -/
def ReplicatedValue.GetDefaultString : String := ""

/-- Modelled from the spec: fixed default for the Vector3 kind
(ReplicatedValue::GetDefaultVector3): the zero vector. -/
def ReplicatedValue.GetDefaultVector3 : Vector3 := ⟨0, 0, 0⟩

/-- Modelled from the spec: fixed default for the Vector4 kind
(ReplicatedValue::GetDefaultVector4): the zero vector. -/
def ReplicatedValue.GetDefaultVector4 : Vector4 := ⟨0, 0, 0, 0⟩

/-- Modelled from the spec: typed getter GetBool (spec 4.1); on a kind
mismatch it fails with the TypeMismatch exception naming expected and
actual kind. -/
def ReplicatedValue.GetBool : ReplicatedValue → Except ReplicatedValueException Bool
  | .boolValue b => .ok b
  | v => .error ⟨.Boolean, v.GetReplicatedValueType⟩

/-- Modelled from the spec: typed getter GetInt (spec 4.1). -/
def ReplicatedValue.GetInt : ReplicatedValue → Except ReplicatedValueException Int
  | .intValue i => .ok i
  | v => .error ⟨.Integer, v.GetReplicatedValueType⟩

/-- Modelled from the spec: typed getter GetFloat (spec 4.1). -/
def ReplicatedValue.GetFloat : ReplicatedValue → Except ReplicatedValueException ℚ
  | .floatValue q => .ok q
  | v => .error ⟨.Float, v.GetReplicatedValueType⟩

/-- Modelled from the spec: typed getter GetString (spec 4.1). -/
def ReplicatedValue.GetString : ReplicatedValue → Except ReplicatedValueException String
  | .stringValue s => .ok s
  | v => .error ⟨.String, v.GetReplicatedValueType⟩

/-- Modelled from the spec: typed getter GetVector2 (spec 4.1). -/
def ReplicatedValue.GetVector2 : ReplicatedValue → Except ReplicatedValueException Vector2
  | .vector2Value v => .ok v
  | v => .error ⟨.Vector2, v.GetReplicatedValueType⟩

/-- Modelled from the spec: typed getter GetVector3 (spec 4.1). -/
def ReplicatedValue.GetVector3 : ReplicatedValue → Except ReplicatedValueException Vector3
  | .vector3Value v => .ok v
  | v => .error ⟨.Vector3, v.GetReplicatedValueType⟩

/-- Modelled from the spec: typed getter GetVector4 (spec 4.1). -/
def ReplicatedValue.GetVector4 : ReplicatedValue → Except ReplicatedValueException Vector4
  | .vector4Value v => .ok v
  | v => .error ⟨.Vector4, v.GetReplicatedValueType⟩

/-- Modelled from the spec: typed getter GetStringMap (spec 4.1). -/
def ReplicatedValue.GetStringMap : ReplicatedValue → Except ReplicatedValueException (List (String × String))
  | .stringMapValue m => .ok m
  | v => .error ⟨.StringMap, v.GetReplicatedValueType⟩

/-- Errors raised by PropertyStore.Set (spec section 7): a key outside the
schema range, or a value whose kind differs from the declared one; the
mismatch carries expected and actual kind, mirroring 4.1. -/
inductive SchemaError where
  | SchemaOutOfRange (key : Nat)
  | SchemaTypeMismatch (Expected : ReplicatedValueType) (Actual : ReplicatedValueType)
  deriving DecidableEq, Repr

/-- Modelled from the spec: the per-component PropertyStore (spec 3, 4.2);
the owning ComponentBase (Properties array, dirty set) is not under src,
only its component subclasses are. The schema lists the declared kind of
each key 0..N-1; slots is the fixed-size value array; dirty the set of
keys modified since the last flush. -/
structure PropertyStore where
  schema : List ReplicatedValueType
  slots : List ReplicatedValue
  dirty : List Nat
  deriving DecidableEq, Repr

/-- Modelled from the spec: Get returns the stored value for the key
(Invalid past the array, which a well-formed store never exposes for an
in-schema key). -/
def PropertyStore.Get (s : PropertyStore) (key : Nat) : ReplicatedValue :=
  s.slots.getD key .invalid

/-- Modelled from the spec: Set requires the key in schema range and the
value kind to match the declared kind; on success it stores the value and
marks the key dirty, on mismatch it fails without mutating anything. -/
def PropertyStore.Set (s : PropertyStore) (key : Nat) (v : ReplicatedValue) :
    Except SchemaError PropertyStore :=
  match s.schema.get? key with
  | none => .error (.SchemaOutOfRange key)
  | some t =>
    if v.GetReplicatedValueType = t then
      .ok { s with slots := s.slots.set key v, dirty := key :: s.dirty }
    else
      .error (.SchemaTypeMismatch t v.GetReplicatedValueType)

/-- Modelled from the spec: TakeDirty returns the dirty (key, value) pairs
and clears the dirty set (spec 4.2). -/
def PropertyStore.TakeDirty (s : PropertyStore) :
    (List (Nat × ReplicatedValue)) × PropertyStore :=
  (s.dirty.map (fun k => (k, s.Get k)), { s with dirty := [] })

/-- Modelled from the spec: the CollisionPropertyKeys enumeration. Its
header is not under src; the keys, in the contiguous-from-0 convention of
spec section 3, follow the order the constructor in
src/Library/src/Multiplayer/Components/CollisionSpaceComponent.cpp fills. -/
inductive CollisionPropertyKeys where
  | Position
  | Rotation
  | Scale
  | CollisionShape
  | CollisionMode
  | CollisionAssetId
  | AssetCollectionId
  | ThirdPartyComponentRef
  | Num
  deriving DecidableEq, Repr

/-- Numeric value of each collision property key (contiguous, Num the count). -/
def CollisionPropertyKeys.value : CollisionPropertyKeys → Nat
  | .Position => 0
  | .Rotation => 1
  | .Scale => 2
  | .CollisionShape => 3
  | .CollisionMode => 4
  | .CollisionAssetId => 5
  | .AssetCollectionId => 6
  | .ThirdPartyComponentRef => 7
  | .Num => 8

/-- Declared kind of each collision property key, read off the defaults the
constructor in CollisionSpaceComponent.cpp assigns (Vector3 position, Vector4
rotation, Vector3 scale, integer shape and mode, three string ids). -/
def collisionSchema : List ReplicatedValueType :=
  [.Vector3, .Vector4, .Vector3, .Integer, .Integer, .String, .String, .String]

/-- Default property values assigned by CollisionSpaceComponent's constructor
(src lines 35-42): zero position, identity quaternion, unit scale,
CollisionShape::Box and CollisionMode::Collision as integers (their numeric
enum values are not under src and are modelled as 0), and empty strings.  -/
def collisionDefaultSlots : List ReplicatedValue :=
  [.vector3Value ⟨0, 0, 0⟩, .vector4Value ⟨0, 0, 0, 1⟩, .vector3Value ⟨1, 1, 1⟩,
   .intValue 0, .intValue 0, .stringValue "", .stringValue "", .stringValue ""]

/-- The property store of a freshly constructed CollisionSpaceComponent. -/
def collisionInitialStore : PropertyStore :=
  { schema := collisionSchema, slots := collisionDefaultSlots, dirty := [] }

/-- CollisionSpaceComponent::GetPosition (src lines 47-57): returns the
stored Vector3, or the default Vector3 when the stored kind is wrong; the
Bool records whether the error log (FOUNDATION_LOG_ERROR_MSG) fired. -/
def CollisionSpaceComponent.GetPosition (s : PropertyStore) : Vector3 × Bool :=
  match s.Get (CollisionPropertyKeys.value .Position) with
  | .vector3Value v => (v, false)
  | _ => (ReplicatedValue.GetDefaultVector3, true)

/-- CollisionSpaceComponent::GetScale (src lines 81-91): the stored Vector3
scale, or the default Vector3 when the stored kind is wrong. -/
def CollisionSpaceComponent.GetScale (s : PropertyStore) : Vector3 :=
  match s.Get (CollisionPropertyKeys.value .Scale) with
  | .vector3Value v => v
  | _ => ReplicatedValue.GetDefaultVector3

/-- CollisionSpaceComponent::GetUnscaledBoundingBoxMin (src line 166). -/
def CollisionSpaceComponent.GetUnscaledBoundingBoxMin : Vector3 :=
  ⟨-(1 / 2), -(1 / 2), -(1 / 2)⟩

/-- CollisionSpaceComponent::GetUnscaledBoundingBoxMax (src line 171). -/
def CollisionSpaceComponent.GetUnscaledBoundingBoxMax : Vector3 :=
  ⟨1 / 2, 1 / 2, 1 / 2⟩

/-- CollisionSpaceComponent::GetScaledBoundingBoxMin (src line 176):
componentwise -0.5 * GetScale(). -/
def CollisionSpaceComponent.GetScaledBoundingBoxMin (s : PropertyStore) : Vector3 :=
  ⟨-(1 / 2) * (CollisionSpaceComponent.GetScale s).X,
   -(1 / 2) * (CollisionSpaceComponent.GetScale s).Y,
   -(1 / 2) * (CollisionSpaceComponent.GetScale s).Z⟩

/-- CollisionSpaceComponent::GetScaledBoundingBoxMax (src line 181):
componentwise 0.5 * GetScale(). -/
def CollisionSpaceComponent.GetScaledBoundingBoxMax (s : PropertyStore) : Vector3 :=
  ⟨(1 / 2) * (CollisionSpaceComponent.GetScale s).X,
   (1 / 2) * (CollisionSpaceComponent.GetScale s).Y,
   (1 / 2) * (CollisionSpaceComponent.GetScale s).Z⟩

/-- Componentwise (Hadamard) product of two vectors. -/
def Vector3.cmul (a b : Vector3) : Vector3 :=
  ⟨a.X * b.X, a.Y * b.Y, a.Z * b.Z⟩

/-- Componentwise negation of a vector. -/
def Vector3.cneg (a : Vector3) : Vector3 :=
  ⟨-a.X, -a.Y, -a.Z⟩

/-- The property-key enumeration of the animated model component, from
enum class AnimatedModelPropertyKeys in
src/Library/include/CSP/Multiplayer/Components/AnimatedModelSpaceComponent.h. -/
inductive AnimatedModelPropertyKeys where
  | Name
  | ModelAssetId
  | AssetCollectionId
  | Position
  | Rotation
  | Scale
  | IsLoopPlayback
  | IsPlaying
  | IsVisible
  | RESERVED
  | AnimationIndex
  | IsARVisible
  | ThirdPartyComponentRef
  | Num
  deriving DecidableEq, Repr

/-- Numeric value of each animated model property key: the header declares
Name = 0 and lets the C++ enum count up from there. -/
def AnimatedModelPropertyKeys.value : AnimatedModelPropertyKeys → Nat
  | .Name => 0
  | .ModelAssetId => 1
  | .AssetCollectionId => 2
  | .Position => 3
  | .Rotation => 4
  | .Scale => 5
  | .IsLoopPlayback => 6
  | .IsPlaying => 7
  | .IsVisible => 8
  | .RESERVED => 9
  | .AnimationIndex => 10
  | .IsARVisible => 11
  | .ThirdPartyComponentRef => 12
  | .Num => 13

/-- The animated model keys in declaration order, sentinel excluded. -/
def animatedModelKeyList : List AnimatedModelPropertyKeys :=
  [.Name, .ModelAssetId, .AssetCollectionId, .Position, .Rotation, .Scale,
   .IsLoopPlayback, .IsPlaying, .IsVisible, .RESERVED, .AnimationIndex,
   .IsARVisible, .ThirdPartyComponentRef]

/-- The generic dynamic wire value produced by the transport (spec section 3,
signalr::value in the test): null, scalars, sequence, integer-keyed map and
string-keyed map; doubles as rationals. -/
inductive WireValue where
  | null
  | boolVal (b : Bool)
  | uintVal (n : Nat)
  | intVal (i : Int)
  | doubleVal (q : ℚ)
  | strVal (s : String)
  | seqVal (xs : List WireValue)
  | intMapVal (m : List (Nat × WireValue))
  | strMapVal (m : List (String × WireValue))

/-- Modelled from the spec: the registry of known item data-type codes
(mcs::ItemComponentDataType; MCSTypes.h is not under src). Scalars, their
nullable variants and the string dictionary, per spec 4.3. -/
inductive ItemComponentDataType where
  | BOOL
  | INT64
  | UINT64
  | DOUBLE
  | STRING
  | NULLABLE_BOOL
  | NULLABLE_INT64
  | NULLABLE_UINT64
  | NULLABLE_DOUBLE
  | NULLABLE_STRING
  | STRING_DICTIONARY
  deriving DecidableEq, Repr

/-- Modelled from the spec: the numeric code of each known data type. The
concrete numbers are not under src; they are fixed arbitrarily, and every
claim depends only on membership in the registry. -/
def ItemComponentDataTypeOfCode : Nat → Option ItemComponentDataType
  | 0 => some .BOOL
  | 1 => some .INT64
  | 2 => some .UINT64
  | 3 => some .DOUBLE
  | 4 => some .STRING
  | 5 => some .NULLABLE_BOOL
  | 6 => some .NULLABLE_INT64
  | 7 => some .NULLABLE_UINT64
  | 8 => some .NULLABLE_DOUBLE
  | 9 => some .NULLABLE_STRING
  | 10 => some .STRING_DICTIONARY
  | _ => none

/-- Result of decoding one tagged wire item (spec 4.3): a typed scalar, the
explicit absent marker of a null-payload nullable, a string dictionary, or
Invalid for an unknown type code. -/
inductive DecodedItem where
  | invalid
  | boolItem (b : Bool)
  | intItem (i : Int)
  | uintItem (n : Nat)
  | doubleItem (q : ℚ)
  | strItem (s : String)
  | absentItem
  | dictItem (m : List (String × String))
  deriving DecidableEq, Repr

/-- A hard decode error (spec section 7, DecodeShapeError): carries which
field or position was unexpected. -/
structure DecodeShapeError where
  Field : String
  deriving DecidableEq, Repr

/-- Modelled from the spec: decode one scalar payload element against its
declared data type (spec 4.3 steps 2 and 4): nullable types accept null as
the absent marker, numeric widening is permitted, any other shape mismatch
between tag and payload is a decode error. -/
def decodeScalar : ItemComponentDataType → WireValue → Except DecodeShapeError DecodedItem
  | .BOOL, .boolVal b => .ok (.boolItem b)
  | .INT64, .intVal i => .ok (.intItem i)
  | .INT64, .uintVal n => .ok (.intItem n)
  | .UINT64, .uintVal n => .ok (.uintItem n)
  | .DOUBLE, .doubleVal q => .ok (.doubleItem q)
  | .DOUBLE, .intVal i => .ok (.doubleItem i)
  | .DOUBLE, .uintVal n => .ok (.doubleItem n)
  | .STRING, .strVal s => .ok (.strItem s)
  | .NULLABLE_BOOL, .null => .ok .absentItem
  | .NULLABLE_BOOL, .boolVal b => .ok (.boolItem b)
  | .NULLABLE_INT64, .null => .ok .absentItem
  | .NULLABLE_INT64, .intVal i => .ok (.intItem i)
  | .NULLABLE_INT64, .uintVal n => .ok (.intItem n)
  | .NULLABLE_UINT64, .null => .ok .absentItem
  | .NULLABLE_UINT64, .uintVal n => .ok (.uintItem n)
  | .NULLABLE_DOUBLE, .null => .ok .absentItem
  | .NULLABLE_DOUBLE, .doubleVal q => .ok (.doubleItem q)
  | .NULLABLE_DOUBLE, .intVal i => .ok (.doubleItem i)
  | .NULLABLE_DOUBLE, .uintVal n => .ok (.doubleItem n)
  | .NULLABLE_STRING, .null => .ok .absentItem
  | .NULLABLE_STRING, .strVal s => .ok (.strItem s)
  | _, _ => .error ⟨"item payload kind"⟩

mutual

/-- Modelled from the spec: decode one tagged item [TypeId, [Payload]]
(spec 4.3): read the TypeId, map it through the registry and hand the
payload to the per-type decoding; any other item shape is a decode error. -/
def decodeItem : WireValue → Except DecodeShapeError DecodedItem
  | .seqVal [.uintVal tid, .seqVal payload] =>
    decodeTagged (ItemComponentDataTypeOfCode tid) payload
  | _ => .error ⟨"item shape"⟩

/-- Modelled from the spec: decode a payload against its registry lookup
(spec 4.3): an unknown TypeId decodes to Invalid without failing; a string
dictionary recursively decodes each nested tagged entry as a string; any
known scalar type requires exactly one payload element. -/
def decodeTagged : Option ItemComponentDataType → List WireValue → Except DecodeShapeError DecodedItem
  | none, _ => .ok .invalid
  | some .STRING_DICTIONARY, payload =>
    match payload with
    | [.strMapVal entries] =>
      match decodeDictEntries entries with
      | .ok m => .ok (.dictItem m)
      | .error e => .error e
    | _ => .error ⟨"StringDictionary payload"⟩
  | some t, payload =>
    match payload with
    | [p] => decodeScalar t p
    | _ => .error ⟨"item payload arity"⟩

/-- Modelled from the spec: decode the entries of a string dictionary; each
value is itself a tagged item that must decode to a string (spec 4.3 step 3). -/
def decodeDictEntries : List (String × WireValue) → Except DecodeShapeError (List (String × String))
  | [] => .ok []
  | (k, v) :: rest =>
    match decodeItem v with
    | .ok (.strItem s) =>
      match decodeDictEntries rest with
      | .ok m => .ok ((k, s) :: m)
      | .error e => .error e
    | .ok _ => .error ⟨"StringDictionary entry kind"⟩
    | .error e => .error e

end

/-- Modelled from the spec: Layer 1 of event decoding (spec 4.4): decode
every entry of the Components map independently through decodeItem. -/
def decodeComponents : List (Nat × WireValue) → Except DecodeShapeError (List (Nat × DecodedItem))
  | [] => .ok []
  | (k, v) :: rest =>
    match decodeItem v with
    | .error e => .error e
    | .ok d =>
      match decodeComponents rest with
      | .error e => .error e
      | .ok r => .ok ((k, d) :: r)

/-- The decoded AsyncCallCompleted event record
(csp::common::AsyncCallCompletedEventData as exercised by
src/Tests/src/InternalTests/NetworkEventSerialisationTests.cpp). -/
structure AsyncCallCompletedEventData where
  SenderClientId : Nat
  RecipientClientId : Option Nat
  OperationName : String
  ReferenceId : String
  ReferenceType : String
  References : List (String × String)
  Success : Option Bool
  StatusReason : String
  deriving DecidableEq, Repr

/-- Modelled from the spec: Layer 2 for the AsyncCallCompleted event
(spec 4.4): index 0 the operation name; index 1 either a bare string
(legacy: copied into ReferenceId, ReferenceType fixed to "GroupId",
dictionary left empty) or a references dictionary (current: stored whole,
and when it holds the primary-identifier key "SpaceId" the legacy fields
are derived from it); index 2 the nullable success flag; index 3 the
status reason; absent indices keep their defaults. -/
def buildAsyncCallCompleted (sender : Nat) (recip : Option Nat)
    (comps : List (Nat × DecodedItem)) : AsyncCallCompletedEventData :=
  let opName := match comps.lookup 0 with
    | some (.strItem s) => s
    | _ => ""
  let legacy := match comps.lookup 1 with
    | some (.strItem s) => (s, "GroupId", ([] : List (String × String)))
    | some (.dictItem m) =>
      match m.lookup "SpaceId" with
      | some v => (v, "GroupId", m)
      | none => ("", "", m)
    | _ => ("", "", [])
  let succ := match comps.lookup 2 with
    | some (.boolItem b) => some b
    | _ => none
  let reason := match comps.lookup 3 with
    | some (.strItem s) => s
    | _ => ""
  { SenderClientId := sender, RecipientClientId := recip, OperationName := opName,
    ReferenceId := legacy.1, ReferenceType := legacy.2.1, References := legacy.2.2,
    Success := succ, StatusReason := reason }

/-- Modelled from the spec: the recipient element is either null or a
client id (spec 4.4 top-level shape). -/
def decodeRecipient : WireValue → Except DecodeShapeError (Option Nat)
  | .null => .ok none
  | .uintVal n => .ok (some n)
  | _ => .error ⟨"RecipientClientId"⟩

/-- Modelled from the spec: DeserializeAsyncCallCompletedEvent
(NetworkEventSerialisation, not under src; its test is). The message must
be [EventName:String, SenderClientId:UInt64, RecipientClientId:UInt64|Null,
Components:IntKeyedMap]; any other arity or element kind is a hard decode
error naming the unexpected field, and no record is produced. -/
def DeserializeAsyncCallCompletedEvent (eventValues : List WireValue) :
    Except DecodeShapeError AsyncCallCompletedEventData :=
  match eventValues with
  | [e0, e1, e2, e3] =>
    match e0 with
    | .strVal _ =>
      match e1 with
      | .uintVal sender =>
        match decodeRecipient e2 with
        | .error e => .error e
        | .ok recip =>
          match e3 with
          | .intMapVal compsWire =>
            match decodeComponents compsWire with
            | .error e => .error e
            | .ok comps => .ok (buildAsyncCallCompleted sender recip comps)
          | _ => .error ⟨"Components"⟩
      | _ => .error ⟨"SenderClientId"⟩
    | _ => .error ⟨"EventName"⟩
  | _ => .error ⟨"EventValues arity"⟩

/-- Wire shape of one tagged item [TypeId, [Payload]], as built by
ConstructComponentElement in the test. -/
def mkItem (tid : Nat) (p : WireValue) : WireValue :=
  .seqVal [.uintVal tid, .seqVal [p]]

/-- The current-layout AsyncCallCompleted message of the test
(ConstructEventValues over the new components map), generic in its field
contents: index 0 operation name, index 1 the references dictionary of
string items, index 2 the nullable success flag, index 3 the status reason. -/
def mkNewLayoutEvent (op : String) (refs : List (String × String))
    (succ : Option Bool) (reason : String) (sender : Nat) : List WireValue :=
  [.strVal "AsyncCallCompleted", .uintVal sender, .null,
   .intMapVal
     [(0, mkItem 4 (.strVal op)),
      (1, mkItem 10 (.strMapVal (refs.map (fun kv => (kv.1, mkItem 4 (.strVal kv.2)))))),
      (2, mkItem 5 (match succ with | none => .null | some b => .boolVal b)),
      (3, mkItem 4 (.strVal reason))]]

/-- The legacy-layout AsyncCallCompleted message of the test, generic in
its field contents: indices 0, 1, 2 each a STRING-tagged item holding the
operation name, the reference id and the reference type tag. -/
def mkOldLayoutEvent (op refId refType : String) (sender : Nat) : List WireValue :=
  [.strVal "AsyncCallCompleted", .uintVal sender, .null,
   .intMapVal
     [(0, mkItem 4 (.strVal op)),
      (1, mkItem 4 (.strVal refId)),
      (2, mkItem 4 (.strVal refType))]]

/-- C9: for every ReplicatedValue kind, constructing a value from a payload
sets the queryable kind accordingly, and reading it back with the matching
typed accessor returns the payload unchanged (round-trip). -/
theorem replicatedValue_construct_roundTrip :
    (∀ b : Bool, (ReplicatedValue.boolValue b).GetReplicatedValueType = .Boolean ∧
      (ReplicatedValue.boolValue b).GetBool = .ok b) ∧
    (∀ i : Int, (ReplicatedValue.intValue i).GetReplicatedValueType = .Integer ∧
      (ReplicatedValue.intValue i).GetInt = .ok i) ∧
    (∀ q : ℚ, (ReplicatedValue.floatValue q).GetReplicatedValueType = .Float ∧
      (ReplicatedValue.floatValue q).GetFloat = .ok q) ∧
    (∀ s : String, (ReplicatedValue.stringValue s).GetReplicatedValueType = .String ∧
      (ReplicatedValue.stringValue s).GetString = .ok s) ∧
    (∀ v : Vector2, (ReplicatedValue.vector2Value v).GetReplicatedValueType = .Vector2 ∧
      (ReplicatedValue.vector2Value v).GetVector2 = .ok v) ∧
    (∀ v : Vector3, (ReplicatedValue.vector3Value v).GetReplicatedValueType = .Vector3 ∧
      (ReplicatedValue.vector3Value v).GetVector3 = .ok v) ∧
    (∀ v : Vector4, (ReplicatedValue.vector4Value v).GetReplicatedValueType = .Vector4 ∧
      (ReplicatedValue.vector4Value v).GetVector4 = .ok v) ∧
    (∀ m : List (String × String), (ReplicatedValue.stringMapValue m).GetReplicatedValueType = .StringMap ∧
      (ReplicatedValue.stringMapValue m).GetStringMap = .ok m) :=
  ⟨fun _ => ⟨rfl, rfl⟩, fun _ => ⟨rfl, rfl⟩, fun _ => ⟨rfl, rfl⟩, fun _ => ⟨rfl, rfl⟩,
   fun _ => ⟨rfl, rfl⟩, fun _ => ⟨rfl, rfl⟩, fun _ => ⟨rfl, rfl⟩, fun _ => ⟨rfl, rfl⟩⟩

/-- C3: every typed accessor invoked on a value of a different active kind
reports the TypeMismatch exception naming the expected and the actual kind
and yields no payload; and the non-throwing component getter
(CollisionSpaceComponent::GetPosition) returns the fixed Vector3 default
and fires the error log when the stored kind is not Vector3. -/
theorem replicatedValue_typeMismatch :
    (∀ v : ReplicatedValue, v.GetReplicatedValueType ≠ .Boolean →
      v.GetBool = .error ⟨.Boolean, v.GetReplicatedValueType⟩) ∧
    (∀ v : ReplicatedValue, v.GetReplicatedValueType ≠ .Integer →
      v.GetInt = .error ⟨.Integer, v.GetReplicatedValueType⟩) ∧
    (∀ v : ReplicatedValue, v.GetReplicatedValueType ≠ .Float →
      v.GetFloat = .error ⟨.Float, v.GetReplicatedValueType⟩) ∧
    (∀ v : ReplicatedValue, v.GetReplicatedValueType ≠ .String →
      v.GetString = .error ⟨.String, v.GetReplicatedValueType⟩) ∧
    (∀ v : ReplicatedValue, v.GetReplicatedValueType ≠ .Vector2 →
      v.GetVector2 = .error ⟨.Vector2, v.GetReplicatedValueType⟩) ∧
    (∀ v : ReplicatedValue, v.GetReplicatedValueType ≠ .Vector3 →
      v.GetVector3 = .error ⟨.Vector3, v.GetReplicatedValueType⟩) ∧
    (∀ v : ReplicatedValue, v.GetReplicatedValueType ≠ .Vector4 →
      v.GetVector4 = .error ⟨.Vector4, v.GetReplicatedValueType⟩) ∧
    (∀ v : ReplicatedValue, v.GetReplicatedValueType ≠ .StringMap →
      v.GetStringMap = .error ⟨.StringMap, v.GetReplicatedValueType⟩) ∧
    (∀ s : PropertyStore,
      (s.Get (CollisionPropertyKeys.value .Position)).GetReplicatedValueType ≠ .Vector3 →
      CollisionSpaceComponent.GetPosition s = (ReplicatedValue.GetDefaultVector3, true)) := by
  refine ⟨?_, ?_, ?_, ?_, ?_, ?_, ?_, ?_, ?_⟩
  all_goals intro v h
  case _ => cases v <;> simp_all [ReplicatedValue.GetBool, ReplicatedValue.GetReplicatedValueType]
  case _ => cases v <;> simp_all [ReplicatedValue.GetInt, ReplicatedValue.GetReplicatedValueType]
  case _ => cases v <;> simp_all [ReplicatedValue.GetFloat, ReplicatedValue.GetReplicatedValueType]
  case _ => cases v <;> simp_all [ReplicatedValue.GetString, ReplicatedValue.GetReplicatedValueType]
  case _ => cases v <;> simp_all [ReplicatedValue.GetVector2, ReplicatedValue.GetReplicatedValueType]
  case _ => cases v <;> simp_all [ReplicatedValue.GetVector3, ReplicatedValue.GetReplicatedValueType]
  case _ => cases v <;> simp_all [ReplicatedValue.GetVector4, ReplicatedValue.GetReplicatedValueType]
  case _ => cases v <;> simp_all [ReplicatedValue.GetStringMap, ReplicatedValue.GetReplicatedValueType]
  case _ =>
    unfold CollisionSpaceComponent.GetPosition
    rcases hv : v.Get (CollisionPropertyKeys.value .Position) <;>
      simp_all [ReplicatedValue.GetReplicatedValueType]

/-- Witness for C3: the Boolean accessor on an Integer value reports the
mismatch, and GetPosition on a store whose Position slot holds a string
returns the default vector with the fault flag raised. -/
theorem replicatedValue_typeMismatch_witness :
    (ReplicatedValue.intValue 7).GetBool = .error ⟨.Boolean, .Integer⟩ ∧
    CollisionSpaceComponent.GetPosition
      { schema := collisionSchema, slots := [.stringValue "oops"], dirty := [] } =
      (ReplicatedValue.GetDefaultVector3, true) :=
  ⟨replicatedValue_typeMismatch.1 (.intValue 7) (by decide),
   replicatedValue_typeMismatch.2.2.2.2.2.2.2.2
     { schema := collisionSchema, slots := [.stringValue "oops"], dirty := [] } (by decide)⟩

/-- C5: immediately after construction of the collision component's
property store, every schema-declared key holds a value whose kind equals
the declared kind, and never the special Invalid (unset) value. -/
theorem collision_store_constructed_defaults :
    ∀ k, k < collisionSchema.length →
      (collisionInitialStore.Get k).GetReplicatedValueType = collisionSchema.getD k .InvalidType ∧
      collisionInitialStore.Get k ≠ .invalid := by decide

/-- Witness for C5: at key 0 (Position) the fresh store holds a Vector3,
not an unset marker. -/
theorem collision_store_constructed_defaults_witness :
    (collisionInitialStore.Get 0).GetReplicatedValueType = collisionSchema.getD 0 .InvalidType ∧
    collisionInitialStore.Get 0 ≠ .invalid :=
  collision_store_constructed_defaults 0 (by decide)

/-- C6: the animated model property keys are the contiguous enumeration
0..12 in declaration order; the sentinel Num equals the count 13; Name is
0; and the explicit RESERVED slot keeps index 9 between IsVisible (8) and
AnimationIndex (10); every key other than the sentinel occurs in the
enumeration. -/
theorem animatedModel_key_schema_contiguous :
    animatedModelKeyList.map AnimatedModelPropertyKeys.value = List.range 13 ∧
    AnimatedModelPropertyKeys.value .Num = 13 ∧
    animatedModelKeyList.length = 13 ∧
    AnimatedModelPropertyKeys.value .Name = 0 ∧
    AnimatedModelPropertyKeys.value .IsVisible = 8 ∧
    AnimatedModelPropertyKeys.value .RESERVED = 9 ∧
    AnimatedModelPropertyKeys.value .AnimationIndex = 10 ∧
    (∀ k : AnimatedModelPropertyKeys, k = .Num ∨ k ∈ animatedModelKeyList) := by
  refine ⟨by decide, by decide, by decide, by decide, by decide, by decide, by decide, ?_⟩
  intro k
  cases k <;> simp [animatedModelKeyList]

/-- C10: in every state of the collision component, the scaled bounding box
minimum is the componentwise product of the fixed unscaled minimum with the
scale, the maximum is the componentwise product of the fixed unscaled
maximum with the scale, and the minimum is the componentwise negation of
the maximum. -/
theorem collision_scaledBoundingBox_relations :
    ∀ s : PropertyStore,
      CollisionSpaceComponent.GetScaledBoundingBoxMin s =
        Vector3.cmul CollisionSpaceComponent.GetUnscaledBoundingBoxMin
          (CollisionSpaceComponent.GetScale s) ∧
      CollisionSpaceComponent.GetScaledBoundingBoxMax s =
        Vector3.cmul CollisionSpaceComponent.GetUnscaledBoundingBoxMax
          (CollisionSpaceComponent.GetScale s) ∧
      CollisionSpaceComponent.GetScaledBoundingBoxMin s =
        Vector3.cneg (CollisionSpaceComponent.GetScaledBoundingBoxMax s) := by
  intro s
  refine ⟨rfl, rfl, ?_⟩
  simp only [CollisionSpaceComponent.GetScaledBoundingBoxMin,
    CollisionSpaceComponent.GetScaledBoundingBoxMax, Vector3.cneg, Vector3.mk.injEq]
  refine ⟨by ring, by ring, by ring⟩

/-- C4: on a well-formed store (slot array schema-sized) whose schema
declares key k with kind T, Set of a value of kind T succeeds, stores it
and marks k dirty, so Get returns exactly that value; Set of a value of
any other kind fails with the SchemaTypeMismatch error naming expected and
actual kind, and hands back no store at all, so the store the caller holds
(and its Get results) are untouched. -/
theorem propertyStore_set_get :
    ∀ (s : PropertyStore) (k : Nat) (v : ReplicatedValue) (T : ReplicatedValueType),
      s.slots.length = s.schema.length →
      s.schema.get? k = some T →
      ((v.GetReplicatedValueType = T →
        ∃ s2, s.Set k v = .ok s2 ∧ s2.Get k = v ∧ k ∈ s2.dirty) ∧
       (v.GetReplicatedValueType ≠ T →
        s.Set k v = .error (.SchemaTypeMismatch T v.GetReplicatedValueType) ∧
        ∀ s2, s.Set k v ≠ .ok s2)) := by
  intro s k v T hlen hk
  have hk2 : s.schema[k]? = some T := by
    rw [← List.get?_eq_getElem?]
    exact hk
  have hklen : k < s.schema.length := (List.getElem?_eq_some.mp hk2).1
  constructor
  · intro hkind
    refine ⟨{ s with slots := s.slots.set k v, dirty := k :: s.dirty }, ?_, ?_, ?_⟩
    · simp [PropertyStore.Set, hk2, hkind]
    · simp [PropertyStore.Get, List.getD_eq_getElem?_getD,
        List.getElem?_set_eq_of_lt v (hlen ▸ hklen)]
    · simp
  · intro hkind
    have hset : s.Set k v = .error (.SchemaTypeMismatch T v.GetReplicatedValueType) := by
      simp [PropertyStore.Set, hk2, hkind]
    exact ⟨hset, fun s2 h => by rw [hset] at h; cases h⟩

/-- Witness for C4: on the fresh collision store, key 0 is declared
Vector3; setting a Vector3 succeeds and reads back, setting an Integer
fails with the mismatch error. -/
theorem propertyStore_set_get_witness :
    ((ReplicatedValue.vector3Value ⟨2, 3, 4⟩).GetReplicatedValueType = .Vector3 →
      ∃ s2, collisionInitialStore.Set 0 (.vector3Value ⟨2, 3, 4⟩) = .ok s2 ∧
        s2.Get 0 = .vector3Value ⟨2, 3, 4⟩ ∧ 0 ∈ s2.dirty) ∧
    ((ReplicatedValue.vector3Value ⟨2, 3, 4⟩).GetReplicatedValueType ≠ .Vector3 →
      collisionInitialStore.Set 0 (.vector3Value ⟨2, 3, 4⟩) =
        .error (.SchemaTypeMismatch .Vector3 (ReplicatedValue.vector3Value ⟨2, 3, 4⟩).GetReplicatedValueType) ∧
      ∀ s2, collisionInitialStore.Set 0 (.vector3Value ⟨2, 3, 4⟩) ≠ .ok s2) :=
  propertyStore_set_get collisionInitialStore 0 (.vector3Value ⟨2, 3, 4⟩) .Vector3
    (by decide) (by decide)

/-- A string dictionary whose entries are STRING-tagged items decodes to
exactly those key/value pairs. -/
theorem decodeDictEntries_strings (refs : List (String × String)) :
    decodeDictEntries (refs.map
      (fun kv => (kv.1, WireValue.seqVal [.uintVal 4, .seqVal [.strVal kv.2]]))) = .ok refs := by
  induction refs with
  | nil => rfl
  | cons hd tl ih =>
    obtain ⟨k, v⟩ := hd
    simp only [List.map_cons, decodeDictEntries]
    rw [show decodeItem (WireValue.seqVal [.uintVal 4, .seqVal [.strVal v]]) =
      .ok (.strItem v) from rfl, ih]

/-- C2: a legacy-layout AsyncCallCompleted message (indices 0, 1, 2 each a
STRING-tagged item, index 1 a bare string) decodes to a record with the
index-0 operation name, ReferenceId copied from index 1, ReferenceType the
fixed legacy tag "GroupId", and the References dictionary left empty. -/
theorem asyncCallCompleted_oldLayout_decode :
    ∀ (op refId refType : String) (sender : Nat),
      DeserializeAsyncCallCompletedEvent (mkOldLayoutEvent op refId refType sender) =
        .ok { SenderClientId := sender, RecipientClientId := none, OperationName := op,
              ReferenceId := refId, ReferenceType := "GroupId", References := [],
              Success := none, StatusReason := "" } :=
  fun _ _ _ _ => rfl

/-- C1: a current-layout AsyncCallCompleted message (index 0 a STRING
operation name, index 1 a STRING_DICTIONARY, index 2 a NULLABLE_BOOL,
index 3 a STRING) whose dictionary holds the primary-identifier key
"SpaceId" decodes to a record holding every dictionary entry in
References, the index-2 value in Success, the index-3 string in
StatusReason, and the derived legacy fields ReferenceId (the SpaceId
entry value) and ReferenceType (the fixed legacy tag "GroupId"). -/
theorem asyncCallCompleted_newLayout_decode :
    ∀ (op reason : String) (refs : List (String × String)) (v : String)
      (succ : Option Bool) (sender : Nat),
      refs.lookup "SpaceId" = some v →
      DeserializeAsyncCallCompletedEvent (mkNewLayoutEvent op refs succ reason sender) =
        .ok { SenderClientId := sender, RecipientClientId := none, OperationName := op,
              ReferenceId := v, ReferenceType := "GroupId", References := refs,
              Success := succ, StatusReason := reason } := by
  intro op reason refs v succ sender hlookup
  cases succ <;>
    simp [DeserializeAsyncCallCompletedEvent, mkNewLayoutEvent, mkItem, decodeRecipient,
      decodeComponents, decodeItem, decodeTagged, ItemComponentDataTypeOfCode, decodeScalar,
      decodeDictEntries_strings, buildAsyncCallCompleted, List.lookup, hlookup]

/-- Witness for C1: the exact current-layout message of the internal test
decodes to the expected record, including the backward-compat derivation. -/
theorem asyncCallCompleted_newLayout_decode_witness :
    DeserializeAsyncCallCompletedEvent
      (mkNewLayoutEvent "DuplicateSpace"
        [("SpaceId", "new_space-abc-123"), ("OriginalSpaceId", "orig_space-abc-123")]
        (some true) "Success" 123) =
      .ok { SenderClientId := 123, RecipientClientId := none,
            OperationName := "DuplicateSpace", ReferenceId := "new_space-abc-123",
            ReferenceType := "GroupId",
            References := [("SpaceId", "new_space-abc-123"), ("OriginalSpaceId", "orig_space-abc-123")],
            Success := some true, StatusReason := "Success" } :=
  asyncCallCompleted_newLayout_decode "DuplicateSpace" "Success"
    [("SpaceId", "new_space-abc-123"), ("OriginalSpaceId", "orig_space-abc-123")]
    "new_space-abc-123" (some true) 123 rfl

/-- C7: a message whose top-level shape is malformed (arity other than 4,
or a wrong WireValue kind at a required position) fails with the decode
error naming the unexpected field, and no record is produced: a successful
decode only ever happens for 4-element messages. -/
theorem malformed_event_shape_fails :
    (∀ xs : List WireValue, xs.length ≠ 4 →
      DeserializeAsyncCallCompletedEvent xs = .error ⟨"EventValues arity"⟩) ∧
    (∀ e0 e1 e2 e3 : WireValue, (∀ s, e0 ≠ .strVal s) →
      DeserializeAsyncCallCompletedEvent [e0, e1, e2, e3] = .error ⟨"EventName"⟩) ∧
    (∀ (s : String) (e1 e2 e3 : WireValue), (∀ n, e1 ≠ .uintVal n) →
      DeserializeAsyncCallCompletedEvent [.strVal s, e1, e2, e3] = .error ⟨"SenderClientId"⟩) ∧
    (∀ (s : String) (n : Nat) (e2 e3 : WireValue),
      e2 ≠ .null → (∀ m, e2 ≠ .uintVal m) →
      DeserializeAsyncCallCompletedEvent [.strVal s, .uintVal n, e2, e3] =
        .error ⟨"RecipientClientId"⟩) ∧
    (∀ (s : String) (n : Nat) (e3 : WireValue), (∀ m, e3 ≠ .intMapVal m) →
      DeserializeAsyncCallCompletedEvent [.strVal s, .uintVal n, .null, e3] =
        .error ⟨"Components"⟩) ∧
    (∀ (xs : List WireValue) (r : AsyncCallCompletedEventData),
      DeserializeAsyncCallCompletedEvent xs = .ok r → xs.length = 4) := by
  refine ⟨?_, ?_, ?_, ?_, ?_, ?_⟩
  · intro xs h
    rcases xs with _ | ⟨a, _ | ⟨b, _ | ⟨c, _ | ⟨d, _ | ⟨e, t⟩⟩⟩⟩⟩
    · rfl
    · rfl
    · rfl
    · rfl
    · exact absurd rfl h
    · rfl
  · intro e0 e1 e2 e3 h
    cases e0 <;> first | rfl | exact absurd rfl (h _)
  · intro s e1 e2 e3 h
    cases e1 <;> first | rfl | exact absurd rfl (h _)
  · intro s n e2 e3 h0 h
    cases e2 <;>
      first
      | exact absurd rfl h0
      | exact absurd rfl (h _)
      | simp [DeserializeAsyncCallCompletedEvent, decodeRecipient]
  · intro s n e3 h
    cases e3 <;>
      first
      | exact absurd rfl (h _)
      | simp [DeserializeAsyncCallCompletedEvent, decodeRecipient]
  · intro xs r h
    rcases xs with _ | ⟨a, _ | ⟨b, _ | ⟨c, _ | ⟨d, _ | ⟨e, t⟩⟩⟩⟩⟩ <;>
      simp_all [DeserializeAsyncCallCompletedEvent]

/-- Witness for C7: a 3-element message fails with the arity error; a
4-element message with a non-string first element fails naming EventName;
and the successful legacy decode has arity exactly 4. -/
theorem malformed_event_shape_fails_witness :
    DeserializeAsyncCallCompletedEvent [.strVal "AsyncCallCompleted", .uintVal 123, .null] =
      .error ⟨"EventValues arity"⟩ ∧
    DeserializeAsyncCallCompletedEvent [.uintVal 9, .uintVal 123, .null, .intMapVal []] =
      .error ⟨"EventName"⟩ ∧
    (mkOldLayoutEvent "DuplicateSpace" "new_space-abc-123" "GroupId" 123).length = 4 :=
  ⟨malformed_event_shape_fails.1 _ (by decide),
   malformed_event_shape_fails.2.1 _ _ _ _ (fun s h => WireValue.noConfusion h),
   malformed_event_shape_fails.2.2.2.2.2 _
     { SenderClientId := 123, RecipientClientId := none, OperationName := "DuplicateSpace",
       ReferenceId := "new_space-abc-123", ReferenceType := "GroupId", References := [],
       Success := none, StatusReason := "" } rfl⟩

/-- Layer-1 decoding distributes over list append: the entries of a
components map decode independently. -/
theorem decodeComponents_append (l1 l2 : List (Nat × WireValue)) :
    decodeComponents (l1 ++ l2) =
      (decodeComponents l1).bind
        (fun a => (decodeComponents l2).map (fun b => a ++ b)) := by
  induction l1 with
  | nil =>
    cases h2 : decodeComponents l2 <;>
      simp [decodeComponents, Except.bind, Except.map, h2]
  | cons hd tl ih =>
    obtain ⟨k0, v0⟩ := hd
    simp only [List.cons_append, decodeComponents, List.append_eq]
    rw [ih]
    cases hi : decodeItem v0 <;> [skip; cases htl : decodeComponents tl] <;>
      [skip; skip; cases h2 : decodeComponents l2] <;>
      simp [Except.bind, Except.map]

/-- C8: an item whose TypeId is outside the known registry decodes to the
Invalid value without failing, and its presence anywhere in a components
map leaves the decoding of every sibling entry exactly as it is without
it: the map decodes whenever the siblings alone decode, with the unknown
item contributing only its Invalid placeholder. -/
theorem unknownTypeId_nonfatal :
    ∀ (k code : Nat) (ps : List WireValue) (pre post : List (Nat × WireValue)),
      ItemComponentDataTypeOfCode code = none →
      decodeItem (.seqVal [.uintVal code, .seqVal ps]) = .ok .invalid ∧
      decodeComponents (pre ++ (k, WireValue.seqVal [.uintVal code, .seqVal ps]) :: post) =
        (decodeComponents pre).bind
          (fun a => (decodeComponents post).map (fun b => a ++ (k, DecodedItem.invalid) :: b)) ∧
      decodeComponents (pre ++ post) =
        (decodeComponents pre).bind
          (fun a => (decodeComponents post).map (fun b => a ++ b)) := by
  intro k code ps pre post h
  have hitem : decodeItem (.seqVal [.uintVal code, .seqVal ps]) = .ok .invalid := by
    show decodeTagged (ItemComponentDataTypeOfCode code) ps = .ok .invalid
    rw [h]
    cases ps <;> rfl
  refine ⟨hitem, ?_, decodeComponents_append pre post⟩
  rw [decodeComponents_append]
  have hcons : decodeComponents ((k, WireValue.seqVal [.uintVal code, .seqVal ps]) :: post) =
      (decodeComponents post).map (fun b => (k, DecodedItem.invalid) :: b) := by
    simp only [decodeComponents, hitem]
    cases hp : decodeComponents post <;> simp [Except.map]
  rw [hcons]
  cases h1 : decodeComponents pre <;> cases h2 : decodeComponents post <;>
    simp [Except.bind, Except.map]

/-- Witness for C8: an item tagged 999 decodes to Invalid, and placing it
between a string item and a bool item leaves both siblings decoding
exactly as without it. -/
theorem unknownTypeId_nonfatal_witness :
    decodeItem (.seqVal [.uintVal 999, .seqVal []]) = .ok .invalid ∧
    decodeComponents [(0, mkItem 4 (.strVal "a")),
        (7, WireValue.seqVal [.uintVal 999, .seqVal []]),
        (1, mkItem 0 (.boolVal true))] =
      (decodeComponents [(0, mkItem 4 (.strVal "a"))]).bind
        (fun a => (decodeComponents [(1, mkItem 0 (.boolVal true))]).map
          (fun b => a ++ (7, DecodedItem.invalid) :: b)) ∧
    decodeComponents [(0, mkItem 4 (.strVal "a")), (1, mkItem 0 (.boolVal true))] =
      (decodeComponents [(0, mkItem 4 (.strVal "a"))]).bind
        (fun a => (decodeComponents [(1, mkItem 0 (.boolVal true))]).map (fun b => a ++ b)) :=
  unknownTypeId_nonfatal 7 999 [] [(0, mkItem 4 (.strVal "a"))]
    [(1, mkItem 0 (.boolVal true))] rfl

end csp
